import Mathlib

/-!
# Verification of the mugen_park time-series alignment and axis-range logic

Shallow embedding of the data pipeline in `src/graph.rs` (`LineGraph::draw`,
`Graph::generate_filename`) and `src/data.rs` (`str_to_datetime`).

Modelling conventions:
* A polars datetime cell (i64 milliseconds since the epoch) is an `Int`.
* The f64 "Integrated Load" column is modelled over `ℚ`; the i64 "N.Y.C."
  column over `Int`.  Nullable cells are `Option`s.
* A Rust panic (an `unwrap` of `None`) is modelled by propagating `none`
  through `Option`-valued results; the Rust functions under scrutiny have no
  error-return channel (`draw` returns `()`), so `none` always means "panic",
  never an explicit failure value.
* polars `sort` (ascending, nulls first, which is the behaviour of
  `SortOptions::default()` / `SortMultipleOptions::default()`) is modelled by
  `List.insertionSort` over the corresponding order; tie order among rows with
  a null key is unspecified in polars, and no theorem below depends on it.
* polars `outer_join` is modelled for unique join keys (the only case the
  claims exercise): each left row is paired with its matching right row if
  any, and unmatched right rows are appended.
-/

namespace MugenPark

/-- A row of `self.data` (ground truth) at draw time: columns
"Time Stamp" (datetime, ms) and "Integrated Load" (f64, nullable). -/
structure TruthRow where
  ts : Int
  load : Option ℚ
deriving DecidableEq, Repr

/-- A row of `self.forecast` at draw time: columns
"Time Stamp" (datetime, ms) and "N.Y.C." (i64, nullable). -/
structure PredRow where
  ts : Int
  nyc : Option Int
deriving DecidableEq, Repr

/-- A row of `full_data = data.outer_join(forecast, ["Time Stamp"], ["Time Stamp"])`:
columns "Time Stamp", "Integrated Load", "Time Stamp_right", "N.Y.C.";
cells absent from one side of the join are null. -/
structure JoinedRow where
  tsL : Option Int
  load : Option ℚ
  tsR : Option Int
  nyc : Option Int
deriving DecidableEq, Repr

/-- The "Time Stamp" column of `self.data`. -/
def truthTimestamps (A : List TruthRow) : List Int := A.map (·.ts)

/-- The "Time Stamp" column of `self.forecast`. -/
def predTimestamps (B : List PredRow) : List Int := B.map (·.ts)

/-- `x_axis_data` (graph.rs lines 75-96, before display formatting):
`data["Time Stamp"].append(forecast["Time Stamp"]).unique().sort()`. -/
def xAxisData (A : List TruthRow) (B : List PredRow) : List Int :=
  List.insertionSort (· ≤ ·) ((truthTimestamps A ++ predTimestamps B).dedup)

/-- `data.outer_join(&forecast, ["Time Stamp"], ["Time Stamp"])` (graph.rs
lines 68-71), for unique join keys: left rows with their match (if any),
followed by the unmatched right rows. -/
def outerJoin (A : List TruthRow) (B : List PredRow) : List JoinedRow :=
  (A.map fun a =>
    match B.find? (fun b => b.ts == a.ts) with
    | some b => ⟨some a.ts, a.load, some b.ts, b.nyc⟩
    | none => ⟨some a.ts, a.load, none, none⟩) ++
  ((B.filter fun b => !(A.any fun a => a.ts == b.ts)).map fun b =>
    ⟨none, none, some b.ts, b.nyc⟩)

/-- Ascending order with nulls first on the nullable "Time Stamp_right"
column, the key of `.sort(["Time Stamp_right"], SortMultipleOptions::default())`. -/
def tsRightLE : Option Int → Option Int → Bool
  | none, _ => true
  | some _, none => false
  | some x, some y => x ≤ y

/-- `full_data` (graph.rs lines 68-73): the outer join sorted by
"Time Stamp_right", ascending, nulls first. -/
def fullData (A : List TruthRow) (B : List PredRow) : List JoinedRow :=
  List.insertionSort (fun r s => tsRightLE r.tsR s.tsR = true) (outerJoin A B)

/-- The "Integrated Load" column of `full_data`, fed to the first line series
(graph.rs lines 156-167). -/
def loadColumn (A : List TruthRow) (B : List PredRow) : List (Option ℚ) :=
  (fullData A B).map (·.load)

/-- The "N.Y.C." column of `full_data`, fed to the second line series
(graph.rs lines 194-210). -/
def nycColumn (A : List TruthRow) (B : List PredRow) : List (Option Int) :=
  (fullData A B).map (·.nyc)

/-- `into_no_null_iter` reads the physical values buffer of a column and
ignores the validity mask: it yields one element per row, and at a null slot
it yields whatever physical value the join materialised there, modelled by the
parameter `fill`. -/
def intoNoNullIter (fill : α) (col : List (Option α)) : List α :=
  col.map (·.getD fill)

/-- The non-null entries of the "Integrated Load" column of `self.data`,
which polars `min()` / `max()` aggregate over. -/
def dataLoads (A : List TruthRow) : List ℚ := A.filterMap (·.load)

/-- `min_y` (graph.rs lines 98-105): `data["Integrated Load"].f64().min()`,
`None` when there is no non-null entry (whereupon the code `unwrap`s, a panic). -/
def minY (A : List TruthRow) : Option ℚ := (dataLoads A).min?

/-- `max_y` (graph.rs lines 107-114). -/
def maxY (A : List TruthRow) : Option ℚ := (dataLoads A).max?

/-- `(min_y / 100.0).floor() * 100.0` (graph.rs line 153). -/
def roundMin (m : ℚ) : ℚ := (⌊m / 100⌋ : ℚ) * 100

/-- `(max_y / 100.0).ceil() * 100.0` (graph.rs line 154). -/
def roundMax (m : ℚ) : ℚ := (⌈m / 100⌉ : ℚ) * 100

/-- The y-axis bounds handed to the renderer. -/
structure AxisRange where
  min : ℚ
  max : ℚ
deriving DecidableEq, Repr

/-- The y-axis range computation of `draw`: unwrap `min_y` and `max_y`
(panicking, i.e. `none`, when the column has no non-null entry) and round
outward to the nearest 100 (graph.rs lines 98-114 and 153-154). -/
def axisRange (A : List TruthRow) : Option AxisRange :=
  match minY A, maxY A with
  | some mn, some mx => some ⟨roundMin mn, roundMax mx⟩
  | _, _ => none

/-- Everything `draw` computes and hands to the chart: the x-axis timeline,
the two aligned-by-join value columns, and the y-range. -/
structure DrawOutput where
  timeline : List Int
  loadCol : List (Option ℚ)
  nycCol : List (Option Int)
  range : AxisRange
deriving DecidableEq, Repr

/-- The observable result of `LineGraph::draw` (graph.rs lines 64-222) up to
rendering: `none` models the panic on `min().unwrap()` / `max().unwrap()`;
every other step of the pipeline is total. -/
def drawResult (A : List TruthRow) (B : List PredRow) : Option DrawOutput :=
  match axisRange A with
  | some r => some ⟨xAxisData A B, loadColumn A B, nycColumn A B, r⟩
  | none => none

/-- The value the claims expect at a timeline timestamp for the ground-truth
series: the series' reading when the timestamp is present, null otherwise. -/
def lookupLoad (A : List TruthRow) (t : Int) : Option ℚ :=
  (A.find? (fun a => a.ts == t)).bind (·.load)

/-- The value the claims expect at a timeline timestamp for the forecast series. -/
def lookupNyc (B : List PredRow) (t : Int) : Option Int :=
  (B.find? (fun b => b.ts == t)).bind (·.nyc)

/-- A valid ground-truth input in the sense of the spec: non-empty, strictly
sorted by timestamp (hence unique timestamps), every reading numeric. -/
def validTruth (A : List TruthRow) : Prop :=
  A ≠ [] ∧ (truthTimestamps A).Sorted (· < ·) ∧ ∀ r ∈ A, r.load.isSome

/-- A valid forecast input in the sense of the spec. -/
def validPred (B : List PredRow) : Prop :=
  B ≠ [] ∧ (predTimestamps B).Sorted (· < ·) ∧ ∀ r ∈ B, r.nyc.isSome

instance : DecidablePred validTruth := fun A => by
  unfold validTruth; infer_instance

instance : DecidablePred validPred := fun B => by
  unfold validPred; infer_instance

/-- The index-alignment property the spec asserts of the two value sequences:
equal length to the timeline and, at every timeline position, the originating
series' reading or a null marker.  (Stated at the nullable-column level, the
strongest reading; the vectors actually handed to the renderer are these
columns after `into_no_null_iter`.) -/
def claimedAlignment (A : List TruthRow) (B : List PredRow) : Prop :=
  (∀ i : Nat, (loadColumn A B)[i]? = ((xAxisData A B)[i]?).map (lookupLoad A)) ∧
  (∀ i : Nat, (nycColumn A B)[i]? = ((xAxisData A B)[i]?).map (lookupNyc B))

/-- The disjoint-series property the spec asserts: timeline length is the sum
of the input lengths and, at every timeline index, the pair's value is
non-null only for the series the timestamp at that index originated from. -/
def claimedOriginOnly (A : List TruthRow) (B : List PredRow) : Prop :=
  (xAxisData A B).length = A.length + B.length ∧
  ∀ i : Nat, ∀ t : Int, (xAxisData A B)[i]? = some t →
    (((loadColumn A B)[i]?.join).isSome → t ∈ truthTimestamps A) ∧
    (((nycColumn A B)[i]?.join).isSome → t ∈ predTimestamps B)

/-- `str_to_datetime` (data.rs lines 87-98), over an abstract parser standing
for `NaiveDateTime::parse_from_str(_, format)`: iterate the string column,
`unwrap` each cell (panic, modelled `none`, on a null cell), and keep only
the cells that parse (`filter_map(.. .ok())`). -/
def strToDatetime (parse : String → Option Int) : List (Option String) → Option (List Int)
  | [] => some []
  | none :: _ => none
  | some s :: rest =>
    match parse s with
    | some t => (strToDatetime parse rest).map (t :: ·)
    | none => strToDatetime parse rest

/-- Zero-padded two-digit field of chrono's `%m`, `%d`, `%H`, `%M`, `%S`. -/
def pad2 (n : Nat) : String := if n < 10 then "0" ++ toString n else toString n

/-- Gregorian civil date (year, month, day) from days since 1970-01-01
(chrono-internal conversion, era-based closed form, post-epoch instants). -/
def civilFromDays (days : Nat) : Nat × Nat × Nat :=
  let z := days + 719468
  let era := z / 146097
  let doe := z % 146097
  let yoe := (doe - doe / 1460 + doe / 36524 - doe / 146097) / 365
  let doy := doe - (365 * yoe + yoe / 4 - yoe / 100)
  let mp := (5 * doy + 2) / 153
  let d := doy - (153 * mp + 2) / 5 + 1
  let m := if mp < 10 then mp + 3 else mp - 9
  let y := yoe + era * 400 + (if m ≤ 2 then 1 else 0)
  (y, m, d)

/-- `now.format("%Y%m%d%H%M%S")` for a post-epoch instant given in seconds. -/
def formatYmdHMS (secs : Nat) : String :=
  let days := secs / 86400
  let rem := secs % 86400
  let c := civilFromDays days
  toString c.1 ++ pad2 c.2.1 ++ pad2 c.2.2 ++
    pad2 (rem / 3600) ++ pad2 (rem % 3600 / 60) ++ pad2 (rem % 60)

/-- `Graph::generate_filename` (graph.rs lines 14-17), with the wall-clock
instant `Utc::now()` made an explicit parameter in milliseconds:
`format!("charts/{}_{}.png", graph_type, now.format("%Y%m%d%H%M%S"))`. -/
def generateFilename (graphType : String) (nowMs : Nat) : String :=
  "charts/" ++ graphType ++ "_" ++ formatYmdHMS (nowMs / 1000) ++ ".png"

/-! ## Helper lemmas -/

lemma min_spec_q {l : List ℚ} {a : ℚ} (h : l.min? = some a) : a ∈ l ∧ ∀ b ∈ l, a ≤ b := by
  haveI : Std.Antisymm (fun (x y : ℚ) => x ≤ y) := ⟨fun h1 h2 => le_antisymm h1 h2⟩
  exact (List.min?_eq_some_iff (fun a => le_refl a) min_choice (fun _ _ _ => le_min_iff)).mp h

lemma max_spec_q {l : List ℚ} {a : ℚ} (h : l.max? = some a) : a ∈ l ∧ ∀ b ∈ l, b ≤ a := by
  haveI : Std.Antisymm (fun (x y : ℚ) => x ≤ y) := ⟨fun h1 h2 => le_antisymm h1 h2⟩
  exact (List.max?_eq_some_iff (fun a => le_refl a) max_choice (fun _ _ _ => max_le_iff)).mp h

lemma roundMin_le (m : ℚ) : roundMin m ≤ m := by
  have h := Int.floor_le (m / 100)
  calc (⌊m / 100⌋ : ℚ) * 100 ≤ m / 100 * 100 :=
        mul_le_mul_of_nonneg_right h (by norm_num)
    _ = m := div_mul_cancel₀ m (by norm_num)

lemma le_roundMax (m : ℚ) : m ≤ roundMax m := by
  have h := Int.le_ceil (m / 100)
  calc m = m / 100 * 100 := (div_mul_cancel₀ m (by norm_num)).symm
    _ ≤ (⌈m / 100⌉ : ℚ) * 100 := mul_le_mul_of_nonneg_right h (by norm_num)

lemma axisRange_eq_none_iff (A : List TruthRow) : axisRange A = none ↔ dataLoads A = [] := by
  unfold axisRange minY maxY
  rcases hmn : (dataLoads A).min? with _ | mn
  · simp only [List.min?_eq_none_iff] at hmn
    simp [hmn]
  · have hne : dataLoads A ≠ [] := by
      intro h
      rw [h] at hmn
      exact absurd hmn (by simp)
    rcases hmx : (dataLoads A).max? with _ | mx
    · exact absurd (List.max?_eq_none_iff.mp hmx) hne
    · simp [hne]

/-! ## Claims about the axis range -/

/-- The spec's worked example `range([150, 320, 480], 100)` as a load column. -/
def rangeExample1 : List TruthRow := [⟨0, some 150⟩, ⟨1, some 320⟩, ⟨2, some 480⟩]

/-- The spec's boundary example `range([500, 500], 100)` as a load column. -/
def rangeExample2 : List TruthRow := [⟨0, some 500⟩, ⟨1, some 500⟩]

/-- Claim C4: for a non-empty value sequence the computed axis range is
`min = floor(dataMin / 100) * 100`, `max = ceil(dataMax / 100) * 100` (the
rounding unit in the code is the constant 100), and on the spec's examples
`range([150, 320, 480]) = {100, 500}` and `range([500, 500]) = {500, 500}`. -/
theorem axis_range_rounding_formula (A : List TruthRow) (mn mx : ℚ)
    (hmn : minY A = some mn) (hmx : maxY A = some mx) :
    axisRange A = some ⟨(⌊mn / 100⌋ : ℚ) * 100, (⌈mx / 100⌉ : ℚ) * 100⟩ ∧
    axisRange rangeExample1 = some ⟨100, 500⟩ ∧
    axisRange rangeExample2 = some ⟨500, 500⟩ := by
  refine ⟨?_, ?_, ?_⟩
  · unfold axisRange
    rw [hmn, hmx]
    rfl
  · have h1 : minY rangeExample1 = some 150 := by decide
    have h2 : maxY rangeExample1 = some 480 := by decide
    unfold axisRange
    rw [h1, h2]
    have hf : (⌊(150 : ℚ) / 100⌋ : Int) = 1 := by
      rw [Int.floor_eq_iff]
      norm_num
    have hc : (⌈(480 : ℚ) / 100⌉ : Int) = 5 := by
      rw [Int.ceil_eq_iff]
      norm_num
    simp [roundMin, roundMax, hf, hc]
    norm_num
  · have h1 : minY rangeExample2 = some 500 := by decide
    have h2 : maxY rangeExample2 = some 500 := by decide
    unfold axisRange
    rw [h1, h2]
    have hf : (⌊(500 : ℚ) / 100⌋ : Int) = 5 := by
      rw [Int.floor_eq_iff]
      norm_num
    have hc : (⌈(500 : ℚ) / 100⌉ : Int) = 5 := by
      rw [Int.ceil_eq_iff]
      norm_num
    simp [roundMin, roundMax, hf, hc]
    norm_num

/-- Witness for C4 at the input `[150, 320, 480]`. -/
theorem axis_range_rounding_formula_checked :
    axisRange rangeExample1 =
      some ⟨(⌊(150 : ℚ) / 100⌋ : ℚ) * 100, (⌈(480 : ℚ) / 100⌉ : ℚ) * 100⟩ ∧
    axisRange rangeExample1 = some ⟨100, 500⟩ ∧
    axisRange rangeExample2 = some ⟨500, 500⟩ :=
  axis_range_rounding_formula rangeExample1 150 480 (by decide) (by decide)

/-- Claim C6: the rounded-outward axis bounds always enclose the scanned data:
`min ≤ dataMin ≤ dataMax ≤ max` whenever the scan produced a minimum and a
maximum (i.e. the column has a non-null entry). -/
theorem axis_range_encloses_data (A : List TruthRow) (mn mx : ℚ)
    (hmn : minY A = some mn) (hmx : maxY A = some mx) :
    roundMin mn ≤ mn ∧ mn ≤ mx ∧ mx ≤ roundMax mx ∧
    axisRange A = some ⟨roundMin mn, roundMax mx⟩ := by
  obtain ⟨hmem, -⟩ := min_spec_q hmn
  obtain ⟨-, hub⟩ := max_spec_q hmx
  refine ⟨roundMin_le mn, hub mn hmem, le_roundMax mx, ?_⟩
  unfold axisRange
  rw [hmn, hmx]

/-- Witness for C6 at the input `[150, 320, 480]`. -/
theorem axis_range_encloses_data_checked :
    roundMin 150 ≤ (150 : ℚ) ∧ (150 : ℚ) ≤ 480 ∧ (480 : ℚ) ≤ roundMax 480 ∧
    axisRange rangeExample1 = some ⟨roundMin 150, roundMax 480⟩ :=
  axis_range_encloses_data rangeExample1 150 480 (by decide) (by decide)

/-- Counterexample to claim C7: on a column whose only entry is null the code
does not return an `EmptyValuesError` failure value — it panics on
`min().unwrap()` (modelled `none`); no error type exists in the code. -/
theorem axis_range_all_null_panics :
    axisRange [⟨0, (none : Option ℚ)⟩] = none := by decide

/-- Claim C7 as amended: the axis-range computation panics (modelled `none`)
exactly when the input column has no non-null entry; it has no explicit
failure result at all. -/
theorem axis_range_panics_iff_no_values (A : List TruthRow) :
    axisRange A = none ↔ dataLoads A = [] :=
  axisRange_eq_none_iff A

/-- Counterexample to claim C3: `draw` has neither an `EmptyInputError` nor an
`UnsortedInputError` path.  An empty ground-truth series makes it panic
(modelled `none`, the `min().unwrap()` of an empty column) rather than return
a failure value, and an unsorted forecast input (timestamps `[t2, t1]`,
`t2 > t1`) is processed to a successful result with no error at all. -/
theorem align_missing_error_checks :
    drawResult ([] : List TruthRow) [⟨0, some 1⟩] = none ∧
    (drawResult [⟨0, some 100⟩, ⟨3600000, some 200⟩]
        [⟨7200000, some 5⟩, ⟨3600000, some 4⟩]).isSome = true ∧
    ¬ (predTimestamps [⟨7200000, some 5⟩, ⟨3600000, some 4⟩]).Sorted (· < ·) := by
  refine ⟨by decide, by decide, by decide⟩

/-- Claim C3 as amended: `draw` performs no precondition checks and has no
error-return channel: it succeeds exactly when the ground-truth load column
has a non-null entry, regardless of whether either input is empty or
unsorted, and otherwise panics. -/
theorem draw_succeeds_iff_some_load (A : List TruthRow) (B : List PredRow) :
    (drawResult A B).isSome = true ↔ dataLoads A ≠ [] := by
  unfold drawResult
  rcases h : axisRange A with _ | r
  · simp [(axisRange_eq_none_iff A).mp h]
  · have : ¬ dataLoads A = [] := by
      intro hnil
      rw [(axisRange_eq_none_iff A).mpr hnil] at h
      exact absurd h (by simp)
    simp [this]

/-- Claim C8 (code bug): `str_to_datetime`, whose own doc comment promises a
`chrono::ParseError` on a malformed date string, instead silently drops the
malformed row (`filter_map(.. .ok())`): on a column with one well-formed and
one malformed string it returns a one-element series and no error. -/
theorem str_to_datetime_silently_drops :
    (fun s => if s = "12/01/2023 00:00" then some 1701388800000 else none) "garbage" = none ∧
    strToDatetime (fun s => if s = "12/01/2023 00:00" then some 1701388800000 else none)
      [some "12/01/2023 00:00", some "garbage"] = some [1701388800000] := by
  refine ⟨by decide, by decide⟩

/-- Claim C10: iterating the string column `unwrap`s every cell, so a null
cell makes `str_to_datetime` panic (modelled `none`); when no cell is null the
conversion is total (returns a series, whatever the parser accepts). -/
theorem str_to_datetime_null_panics (parse : String → Option Int)
    (col : List (Option String)) :
    (none ∈ col → strToDatetime parse col = none) ∧
    ((∀ s ∈ col, s.isSome) → (strToDatetime parse col).isSome = true) := by
  induction col with
  | nil => simp [strToDatetime]
  | cons hd tl ih =>
    rcases hd with _ | s
    · refine ⟨fun _ => rfl, fun h => ?_⟩
      exact absurd (h none (by simp)) (by simp)
    · constructor
      · intro hmem
        have htl : none ∈ tl := by
          rcases List.mem_cons.mp hmem with h | h
          · exact absurd h (by simp)
          · exact h
        show (match parse s with
          | some t => (strToDatetime parse tl).map (t :: ·)
          | none => strToDatetime parse tl) = none
        rcases parse s with _ | t
        · exact ih.1 htl
        · simp [ih.1 htl]
      · intro h
        have htl : (strToDatetime parse tl).isSome = true :=
          ih.2 fun x hx => h x (List.mem_cons_of_mem _ hx)
        show (match parse s with
          | some t => (strToDatetime parse tl).map (t :: ·)
          | none => strToDatetime parse tl).isSome = true
        rcases parse s with _ | t
        · exact htl
        · simpa using htl

/-- Witness for C10: a column with a null cell panics; the same column without
the null cell converts. -/
theorem str_to_datetime_null_panics_checked :
    strToDatetime (fun _ => (none : Option Int)) [some "a", none] = none ∧
    (strToDatetime (fun _ => (none : Option Int)) [some "a"]).isSome = true :=
  ⟨(str_to_datetime_null_panics _ _).1 (by decide),
   (str_to_datetime_null_panics _ _).2 (by decide)⟩

/-- Counterexample to claim C9: two distinct invocation instants (here 500 ms
apart) in the same calendar second produce the same generated filename — the
name has one-second resolution, so it is not unique per call. -/
theorem same_second_filename_collision :
    generateFilename "LineChart" 1700000000000 = generateFilename "LineChart" 1700000000500 ∧
    (1700000000000 : Nat) ≠ 1700000000500 := by
  refine ⟨rfl, by decide⟩

/-- Claim C9 as amended: the generated filename is a pure function of the
graph-type tag and the generation time truncated to whole seconds, so any two
calls whose instants fall in the same second (with the same tag) collide;
uniqueness holds only across calls with distinct formatted times. -/
theorem filename_depends_on_second (g : String) (t1 t2 : Nat)
    (h : t1 / 1000 = t2 / 1000) :
    generateFilename g t1 = generateFilename g t2 := by
  unfold generateFilename
  rw [h]

/-- Witness for the amended C9 at two instants of one second. -/
theorem filename_depends_on_second_checked :
    generateFilename "PieChart" 1000 = generateFilename "PieChart" 1999 :=
  filename_depends_on_second "PieChart" 1000 1999 (by decide)

/-! ## Claims about the aligned timeline and the joined value columns -/

lemma any_ts_eq (A : List TruthRow) (t : Int) :
    (A.any fun a => a.ts == t) = true ↔ t ∈ truthTimestamps A := by
  rw [List.any_eq_true]
  constructor
  · rintro ⟨a, ha, he⟩
    exact List.mem_map.mpr ⟨a, ha, by simpa using he⟩
  · intro h
    obtain ⟨a, ha, he⟩ := List.mem_map.mp h
    exact ⟨a, ha, by simp [he]⟩

lemma dedup_perm_append (A : List TruthRow) (B : List PredRow)
    (hA : (truthTimestamps A).Nodup) (hB : (predTimestamps B).Nodup) :
    ((truthTimestamps A ++ predTimestamps B).dedup).Perm
      (truthTimestamps A ++
        (predTimestamps B).filter (fun t => !(A.any fun a => a.ts == t))) := by
  have hndR : (truthTimestamps A ++
      (predTimestamps B).filter (fun t => !(A.any fun a => a.ts == t))).Nodup := by
    rw [List.nodup_append]
    refine ⟨hA, hB.filter _, ?_⟩
    intro t htA htF
    have := (List.mem_filter.mp htF).2
    rw [Bool.not_eq_true', ← Bool.not_eq_true] at this
    exact this ((any_ts_eq A t).mpr htA)
  refine (List.perm_ext_iff_of_nodup (List.nodup_dedup _) hndR).mpr fun t => ?_
  simp only [List.mem_dedup, List.mem_append, List.mem_filter,
    Bool.not_eq_true', ← Bool.not_eq_true, any_ts_eq]
  by_cases h : t ∈ truthTimestamps A <;> simp [h]

lemma fullData_length (A : List TruthRow) (B : List PredRow)
    (hA : (truthTimestamps A).Nodup) (hB : (predTimestamps B).Nodup) :
    (fullData A B).length = (xAxisData A B).length := by
  have h1 : (fullData A B).length = (outerJoin A B).length :=
    (List.perm_insertionSort _ _).length_eq
  have h2 : (xAxisData A B).length =
      ((truthTimestamps A ++ predTimestamps B).dedup).length :=
    (List.perm_insertionSort _ _).length_eq
  rw [h1, h2, (dedup_perm_append A B hA hB).length_eq]
  simp only [outerJoin, List.length_append, List.length_map, List.filter_map,
    truthTimestamps, predTimestamps]
  congr 1

lemma tsRightLE_total (x y : Option Int) : tsRightLE x y = true ∨ tsRightLE y x = true := by
  rcases x with _ | a
  · exact Or.inl rfl
  · rcases y with _ | b
    · exact Or.inr rfl
    · simpa [tsRightLE] using Int.le_total a b

lemma tsRightLE_trans {x y z : Option Int} (h1 : tsRightLE x y = true)
    (h2 : tsRightLE y z = true) : tsRightLE x z = true := by
  rcases x with _ | a
  · rfl
  · rcases y with _ | b
    · exact absurd h1 (by simp [tsRightLE])
    · rcases z with _ | c
      · exact absurd h2 (by simp [tsRightLE])
      · simp only [tsRightLE, decide_eq_true_eq] at h1 h2 ⊢
        omega

/-- Claim C1: for valid inputs the x-axis timeline is the outer union of the
two timestamp sets, strictly ascending, with every timestamp of either input
appearing exactly once (no duplicates). -/
theorem x_axis_is_sorted_outer_union (A : List TruthRow) (B : List PredRow)
    ( _hA : validTruth A) ( _hB : validPred B) :
    (xAxisData A B).Sorted (· < ·) ∧ (xAxisData A B).Nodup ∧
    ∀ t : Int, t ∈ xAxisData A B ↔ (t ∈ truthTimestamps A ∨ t ∈ predTimestamps B) := by
  have hperm := List.perm_insertionSort (fun x y : Int => x ≤ y)
    ((truthTimestamps A ++ predTimestamps B).dedup)
  have hnd : (xAxisData A B).Nodup := hperm.nodup_iff.mpr (List.nodup_dedup _)
  have hs : (xAxisData A B).Sorted (· ≤ ·) := List.sorted_insertionSort _ _
  refine ⟨hs.lt_of_le hnd, hnd, fun t => ?_⟩
  rw [xAxisData, List.mem_insertionSort, List.mem_dedup, List.mem_append]

/-- Witness for C1 at a pair of small valid series. -/
theorem x_axis_is_sorted_outer_union_checked :
    (xAxisData [⟨0, some 100⟩, ⟨60000, some 200⟩] [⟨30000, some 5⟩]).Sorted (· < ·) ∧
    (xAxisData [⟨0, some 100⟩, ⟨60000, some 200⟩] [⟨30000, some 5⟩]).Nodup ∧
    ∀ t : Int, t ∈ xAxisData [⟨0, some 100⟩, ⟨60000, some 200⟩] [⟨30000, some 5⟩] ↔
      (t ∈ truthTimestamps [⟨0, some 100⟩, ⟨60000, some 200⟩] ∨
       t ∈ predTimestamps [⟨30000, some 5⟩]) :=
  x_axis_is_sorted_outer_union _ _ (by decide) (by decide)

/-- Counterexample to claim C2: for the valid inputs
A = [(10, 1), (30, 3)], B = [(20, 5)] the value columns handed to the renderer
are not index-aligned to the timeline: `full_data` is sorted by
"Time Stamp_right" with nulls first, so A's rows come first and the column
entry at timeline position 2 (timestamp 30) is null instead of A's reading. -/
theorem aligned_columns_not_timeline_aligned :
    validTruth [⟨10, some 1⟩, ⟨30, some 3⟩] ∧ validPred [⟨20, some 5⟩] ∧
    ¬ claimedAlignment [⟨10, some 1⟩, ⟨30, some 3⟩] [⟨20, some 5⟩] :=
  ⟨by decide, by decide, fun h => absurd (h.1 2) (by decide)⟩

/-- Claim C2 as amended: for valid inputs the two value columns (and the
vectors obtained from them by `into_no_null_iter`, whatever physical value a
null slot yields) have length equal to the timeline's, but they are
index-aligned to the outer join sorted by the forecast timestamp column with
nulls first — rows absent from the forecast come first — not to the timeline,
and a gap carries no null marker once `into_no_null_iter` strips the mask. -/
theorem full_data_columns_shape (A : List TruthRow) (B : List PredRow)
    (hA : validTruth A) (hB : validPred B) :
    (loadColumn A B).length = (xAxisData A B).length ∧
    (nycColumn A B).length = (xAxisData A B).length ∧
    (∀ fill : ℚ, (intoNoNullIter fill (loadColumn A B)).length = (xAxisData A B).length) ∧
    (fullData A B).Sorted (fun r s => tsRightLE r.tsR s.tsR = true) := by
  have hlen := fullData_length A B hA.2.1.nodup hB.2.1.nodup
  refine ⟨by simpa [loadColumn] using hlen,
          by simpa [nycColumn] using hlen,
          fun fill => by simpa [intoNoNullIter, loadColumn] using hlen, ?_⟩
  haveI : IsTotal JoinedRow (fun r s => tsRightLE r.tsR s.tsR = true) :=
    ⟨fun r s => tsRightLE_total r.tsR s.tsR⟩
  haveI : IsTrans JoinedRow (fun r s => tsRightLE r.tsR s.tsR = true) :=
    ⟨fun _ _ _ h1 h2 => tsRightLE_trans h1 h2⟩
  exact List.sorted_insertionSort _ _

/-- Witness for the amended C2 at the counterexample's inputs. -/
theorem full_data_columns_shape_checked :
    (loadColumn [⟨10, some 1⟩, ⟨30, some 3⟩] [⟨20, some 5⟩]).length =
      (xAxisData [⟨10, some 1⟩, ⟨30, some 3⟩] [⟨20, some 5⟩]).length ∧
    (nycColumn [⟨10, some 1⟩, ⟨30, some 3⟩] [⟨20, some 5⟩]).length =
      (xAxisData [⟨10, some 1⟩, ⟨30, some 3⟩] [⟨20, some 5⟩]).length ∧
    (∀ fill : ℚ,
      (intoNoNullIter fill (loadColumn [⟨10, some 1⟩, ⟨30, some 3⟩] [⟨20, some 5⟩])).length =
        (xAxisData [⟨10, some 1⟩, ⟨30, some 3⟩] [⟨20, some 5⟩]).length) ∧
    (fullData [⟨10, some 1⟩, ⟨30, some 3⟩] [⟨20, some 5⟩]).Sorted
      (fun r s => tsRightLE r.tsR s.tsR = true) :=
  full_data_columns_shape _ _ (by decide) (by decide)

/-- Counterexample to claim C5: for the valid, timestamp-disjoint inputs
A = [(30, 7)], B = [(10, 1), (20, 2)] the timeline is [10, 20, 30] but the
sorted-by-forecast-timestamp join puts A's row first, so at timeline index 0
(timestamp 10, which originated from B) the pair's non-null value is A's. -/
theorem disjoint_alignment_cex :
    validTruth [⟨30, some 7⟩] ∧ validPred [⟨10, some 1⟩, ⟨20, some 2⟩] ∧
    (∀ t ∈ truthTimestamps [⟨30, some 7⟩], t ∉ predTimestamps [⟨10, some 1⟩, ⟨20, some 2⟩]) ∧
    ¬ claimedOriginOnly [⟨30, some 7⟩] [⟨10, some 1⟩, ⟨20, some 2⟩] :=
  ⟨by decide, by decide, by decide,
    fun h => absurd ((h.2 0 10 (by decide)).1 (by decide)) (by decide)⟩

/-- Claim C5 as amended: for valid timestamp-disjoint inputs the timeline
length is |A| + |B|, and every row of the joined table carries a non-null
value exactly for its originating series — but the rows are ordered by the
forecast timestamp with nulls first, so the row at a timeline index need not
belong to that index's timestamp. -/
theorem disjoint_join_shape (A : List TruthRow) (B : List PredRow)
    (hA : validTruth A) (hB : validPred B)
    (hdisj : ∀ t ∈ truthTimestamps A, t ∉ predTimestamps B) :
    (xAxisData A B).length = A.length + B.length ∧
    ∀ r ∈ fullData A B,
      (r.tsL.isSome = true ∧ r.load.isSome = true ∧ r.tsR = none ∧ r.nyc = none) ∨
      (r.tsL = none ∧ r.load = none ∧ r.tsR.isSome = true ∧ r.nyc.isSome = true) := by
  constructor
  · have h2 : (xAxisData A B).length =
        ((truthTimestamps A ++ predTimestamps B).dedup).length :=
      (List.perm_insertionSort _ _).length_eq
    have hnd : (truthTimestamps A ++ predTimestamps B).Nodup :=
      List.nodup_append.mpr ⟨hA.2.1.nodup, hB.2.1.nodup, hdisj⟩
    rw [h2, List.dedup_eq_self.mpr hnd]
    simp [truthTimestamps, predTimestamps]
  · intro r hr
    have hr2 : r ∈ outerJoin A B := ((List.perm_insertionSort _ _).mem_iff).mp hr
    rcases List.mem_append.mp hr2 with hL | hR
    · obtain ⟨a, haA, heq⟩ := List.mem_map.mp hL
      left
      rcases hfind : B.find? (fun b => b.ts == a.ts) with _ | b
      · rw [hfind] at heq
        subst heq
        exact ⟨rfl, hA.2.2 a haA, rfl, rfl⟩
      · exfalso
        have hb : b.ts = a.ts := by simpa using List.find?_some hfind
        have hbB : b ∈ B := List.mem_of_find?_eq_some hfind
        exact hdisj a.ts (List.mem_map.mpr ⟨a, haA, rfl⟩)
          (hb ▸ List.mem_map.mpr ⟨b, hbB, rfl⟩)
    · obtain ⟨b, hbF, heq⟩ := List.mem_map.mp hR
      right
      subst heq
      exact ⟨rfl, rfl, rfl, hB.2.2 b (List.mem_of_mem_filter hbF)⟩

/-- Witness for the amended C5 at a disjoint pair of singleton series. -/
theorem disjoint_join_shape_checked :
    (xAxisData [⟨1, some 10⟩] [⟨2, some 20⟩]).length =
      ([⟨1, some 10⟩] : List TruthRow).length + ([⟨2, some 20⟩] : List PredRow).length ∧
    ∀ r ∈ fullData [⟨1, some 10⟩] [⟨2, some 20⟩],
      (r.tsL.isSome = true ∧ r.load.isSome = true ∧ r.tsR = none ∧ r.nyc = none) ∨
      (r.tsL = none ∧ r.load = none ∧ r.tsR.isSome = true ∧ r.nyc.isSome = true) :=
  disjoint_join_shape _ _ (by decide) (by decide) (by decide)

end MugenPark
